import Mathlib

/-!
Shallow embedding of `src/tutorials/agentspace-extension/mcp-agentspace/src/
mcp_agentspace/server.py` (the `mcp-agentspace` server).

Modelling choices:
* JSON values (the shape of `json.loads` output and of `MessageToDict`
  dictionaries) are the inductive `Json`; Python dicts are ordered
  association lists, as Python preserves insertion order.
* Python exceptions relevant to these functions are the enum `PyExc`:
  `json.loads` failure is `ValueError`; missing dict key is `KeyError`;
  indexing an empty sequence is `IndexError`; subscripting a non-subscriptable
  value, adding a non-string to a string, or assigning a non-string to
  `os.environ` is `TypeError`; transport/auth failures are `other`.
* The remote calls (`client.search(...)`, `requests.post(...)`) are oracles:
  a `SearchTransport` / `DRTransport` value supplies either the exception the
  call raised or the structured response body the code goes on to inspect.
  For deep research the oracle carries `Option Json`: the `json.loads` result
  of `result.text`, `none` standing for a body that is not valid JSON
  (so `json.loads` raises `ValueError`).
* The `SESSION` environment variable is threaded explicitly: `env : Option
  String` before the call, and the model returns the value after the call.
* The `try/except` facade of each tool is `classify`: `ValueError` maps to
  INVALID_PARAMS and every other exception to INTERNAL_ERROR, exactly the
  two `McpError` categories raised at server.py:141-144 and 235-238.
-/

namespace McpAgentspace

/-- JSON values. Numbers are modelled as `Int`; no claim computes with a
JSON number, they only occur as ill-typed values. -/
inductive Json where
  | null
  | bool (b : Bool)
  | num (n : Int)
  | str (s : String)
  | arr (elems : List Json)
  | obj (fields : List (String × Json))

/-- The Python exceptions that can arise in the embedded functions. -/
inductive PyExc where
  | valueError
  | keyError
  | indexError
  | typeError
  | other
deriving DecidableEq

/-- The two `McpError` categories of server.py (INVALID_PARAMS, INTERNAL_ERROR). -/
inductive ErrCat where
  | invalidParams
  | internalError
deriving DecidableEq

/-- The `except ValueError` / `except Exception` cascade at server.py:141-144
and 235-238: a `ValueError` becomes INVALID_PARAMS, anything else
INTERNAL_ERROR. -/
def classify : PyExc → ErrCat
  | .valueError => .invalidParams
  | _ => .internalError

/-- First binding of a key in an ordered association list (Python dict keys
are unique, so first = only). -/
def lookupField : List (String × Json) → String → Option Json
  | [], _ => none
  | (k, v) :: rest, key => if k = key then some v else lookupField rest key

/-- Python `x[key]` for a string `key`: dict lookup (`KeyError` when absent),
`TypeError` on any non-dict value. -/
def pyGetKey : Json → String → Except PyExc Json
  | .obj fields, key =>
    match lookupField fields key with
    | some v => .ok v
    | none => .error .keyError
  | _, _ => .error .typeError

/-- Python `x[0]`: first element of a list (`IndexError` when empty), first
character of a string as a 1-character string, `KeyError` for a dict whose
keys are strings, `TypeError` otherwise. -/
def pyGetIdx0 : Json → Except PyExc Json
  | .arr (x :: _) => .ok x
  | .arr [] => .error .indexError
  | .str s =>
    match s.toList with
    | [] => .error .indexError
    | c :: _ => .ok (.str (String.mk [c]))
  | .obj _ => .error .keyError
  | _ => .error .typeError

/-! ## get_search_response (server.py:42-144) -/

/-- Oracle for `client.search(request)`: either the call raises, or it
returns a response whose `results` sequence is carried here, each result
as the `MessageToDict(result.document._pb, preserving_proto_field_name=True)`
dictionary inspected at server.py:133-138. -/
inductive SearchTransport where
  | fail (e : PyExc)
  | ok (results : List (List (String × Json)))

/-- `document_dict["derived_struct_data"]["extractive_answers"][0]["content"]`
(server.py:138). -/
def extract_search_content (doc : List (String × Json)) : Except PyExc Json :=
  match pyGetKey (.obj doc) "derived_struct_data" with
  | .error e => .error e
  | .ok dsd =>
    match pyGetKey dsd "extractive_answers" with
    | .error e => .error e
    | .ok ea =>
      match pyGetIdx0 ea with
      | .error e => .error e
      | .ok first => pyGetKey first "content"

/-- Body of the `try` block of `get_search_response` (server.py:58-139):
`response.results[0]` raises `IndexError` when the results sequence is
empty, otherwise the nested extraction runs on the first document dict. -/
def get_search_response_body : SearchTransport → Except PyExc Json
  | .fail e => .error e
  | .ok [] => .error .indexError
  | .ok (doc :: _) => extract_search_content doc

/-- `get_search_response` with its `try/except` facade (server.py:42-144). -/
def get_search_response (t : SearchTransport) : Except ErrCat Json :=
  (get_search_response_body t).mapError classify

/-! ## process_deep_research_response (server.py:146-168) -/

/-- `reply['groundedContent']['content']['text']` followed by
`model_text + '\n'` (server.py:163-164): yields the text only when the path
exists and ends in a string; any failure is an exception swallowed by the
bare `except` of the row loop. -/
def replyText (r : Json) : Option String :=
  match pyGetKey r "groundedContent" with
  | .error _ => none
  | .ok g =>
    match pyGetKey g "content" with
    | .error _ => none
    | .ok c =>
      match pyGetKey c "text" with
      | .error _ => none
      | .ok (.str t) => some t
      | .ok _ => none

/-- The inner `for reply in replies` loop (server.py:162-164): fragments are
appended one by one to `raw_text`, so a failing reply aborts the rest of the
row but keeps the fragments already appended. -/
def repliesText : List Json → String
  | [] => ""
  | r :: rs =>
    match replyText r with
    | some t => t ++ "\n" ++ repliesText rs
    | none => ""

/-- One iteration of `for row in text_json` (server.py:159-167):
`row['answer']['replies']` under the bare `except` that skips the row; a
non-list `replies` value contributes nothing (its iteration either raises
`TypeError` or yields strings on which `reply['groundedContent']` raises,
all swallowed before any fragment is appended). -/
def rowText (row : Json) : String :=
  match pyGetKey row "answer" with
  | .error _ => ""
  | .ok a =>
    match pyGetKey a "replies" with
    | .error _ => ""
    | .ok (.arr rs) => repliesText rs
    | .ok _ => ""

/-- The accumulated contributions of the row loop. -/
def rowsText : List Json → String
  | [] => ""
  | row :: rest => rowText row ++ rowsText rest

/-- Python iteration over the parsed top-level value: a list yields its
elements, a dict its keys, a string its characters as 1-character strings;
anything else raises `TypeError` (uncaught: the bare `except` is inside the
loop, not around it). -/
def iterTop : Json → Except PyExc (List Json)
  | .arr xs => .ok xs
  | .obj fields => .ok (fields.map fun f => Json.str f.1)
  | .str s => .ok (s.toList.map fun c => Json.str (String.mk [c]))
  | _ => .error .typeError

/-- `process_deep_research_response` (server.py:146-168). The argument is the
`json.loads(response.text)` outcome: `none` when the body is not valid JSON
(`ValueError`). On success the result is the fixed heading followed by the
surviving fragments. -/
def process_deep_research_response (body : Option Json) : Except PyExc String :=
  match body with
  | none => .error .valueError
  | some j =>
    match iterTop j with
    | .error e => .error e
    | .ok rows => .ok ("# Reserach Plan\n" ++ rowsText rows)

/-! ## get_deep_research_response (server.py:172-238) -/

/-- Oracle for `requests.post(...)` followed by `json.loads(result.text)`:
`fail e` when the POST raises `e`; `ok body` when a response arrived, with
`body` the parse of its text (`none` = invalid JSON, i.e. `ValueError`). -/
inductive DRTransport where
  | fail (e : PyExc)
  | ok (body : Option Json)

/-- The `stream_assist_request` dict (server.py:200-215): fixed `query` and
`answerGenerationMode` entries; when `start_new_session` is false and the
`SESSION` environment value is present and truthy (non-empty), a `session`
key is appended. -/
def stream_assist_request (query : String) (start_new_session : Bool)
    (env : Option String) : Json :=
  let base : List (String × Json) :=
    [("query", Json.obj [("text", Json.str query)]),
     ("answerGenerationMode", Json.str "research")]
  if start_new_session = false then
    match env with
    | some s => if s = "" then Json.obj base else Json.obj (base ++ [("session", Json.str s)])
    | none => Json.obj base
  else
    Json.obj base

/-- `session = result_json[0]['sessionInfo']['session']` followed by
`os.environ['SESSION'] = session` (server.py:227-229); `os.environ`
assignment raises `TypeError` unless the value is a string. -/
def extract_session (j : Json) : Except PyExc String :=
  match pyGetIdx0 j with
  | .error e => .error e
  | .ok first =>
    match pyGetKey first "sessionInfo" with
    | .error e => .error e
    | .ok si =>
      match pyGetKey si "session" with
      | .error e => .error e
      | .ok (.str s) => .ok s
      | .ok _ => .error .typeError

/-- Body of the `try` block of `get_deep_research_response`
(server.py:189-233). Returns the outgoing request body, the `SESSION`
environment value after the call, and the outcome. The request is built
before the POST; on `start_new_session = true` the session token is stored
before `process_deep_research_response` runs, so it persists even when
processing then fails. -/
def get_deep_research_response_body (query : String) (start_new_session : Bool)
    (env : Option String) (t : DRTransport) :
    Json × Option String × Except PyExc String :=
  let req := stream_assist_request query start_new_session env
  match t with
  | .fail e => (req, env, .error e)
  | .ok none => (req, env, .error .valueError)
  | .ok (some result_json) =>
    if start_new_session = true then
      match extract_session result_json with
      | .error e => (req, env, .error e)
      | .ok s => (req, some s, process_deep_research_response (some result_json))
    else
      (req, env, process_deep_research_response (some result_json))

/-- `get_deep_research_response` with its `try/except` facade
(server.py:172-238). -/
def get_deep_research_response (query : String) (start_new_session : Bool)
    (env : Option String) (t : DRTransport) :
    Json × Option String × Except ErrCat String :=
  let r := get_deep_research_response_body query start_new_session env t
  (r.1, r.2.1, r.2.2.mapError classify)

/-- Whether a JSON object carries a given key at all. -/
def jsonHasKey : Json → String → Bool
  | .obj fields, k => fields.any fun f => f.1 == k
  | _, _ => false

/-- The concatenation of one `t ++ "\n"` fragment per listed text, in
order: the output shape the spec promises for surviving reply fragments. -/
def fragsOf : List String → String
  | [] => ""
  | t :: ts => (t ++ "\n") ++ fragsOf ts

/-- A reply object whose `groundedContent.content.text` is `t`. -/
def mkReply (t : String) : Json :=
  Json.obj [("groundedContent", Json.obj [("content", Json.obj [("text", Json.str t)])])]

/-- A row whose `answer.replies` is the given list. -/
def mkRow (replies : List Json) : Json :=
  Json.obj [("answer", Json.obj [("replies", Json.arr replies)])]

/-! ## Theorems -/

/-- C1: for every search response whose results sequence has at least one
result and whose first result's derived-struct data contains a non-empty
`extractive_answers` sequence (whose first answer carries a `content` field),
`get_search_response` returns exactly that first answer's `content`. -/
theorem c1_search_returns_first_extractive_content
    (doc : List (String × Json)) (rest : List (List (String × Json)))
    (dsd ea0 content : Json) (eaRest : List Json)
    (h1 : pyGetKey (Json.obj doc) "derived_struct_data" = Except.ok dsd)
    (h2 : pyGetKey dsd "extractive_answers" = Except.ok (Json.arr (ea0 :: eaRest)))
    (h3 : pyGetKey ea0 "content" = Except.ok content) :
    get_search_response (SearchTransport.ok (doc :: rest)) = Except.ok content := by
  simp [get_search_response, get_search_response_body, extract_search_content,
    h1, h2, h3, pyGetIdx0, Except.mapError]

/-- Witness for C1 at a concrete one-result response. -/
theorem c1_search_returns_first_extractive_content_witness :
    get_search_response (SearchTransport.ok
      [[("derived_struct_data", Json.obj
          [("extractive_answers", Json.arr [Json.obj [("content", Json.str "ans")]])])]])
      = Except.ok (Json.str "ans") :=
  c1_search_returns_first_extractive_content _ [] _ _ _ [] rfl rfl rfl

/-- C6: for every search response whose results sequence is empty,
`get_search_response` raises the internal-error category (the `IndexError`
from `response.results[0]` is not a `ValueError`). -/
theorem c6_empty_results_internal_error :
    get_search_response (SearchTransport.ok []) = Except.error ErrCat.internalError := rfl

/-- C3: every exception raised inside a tool call's `try` block is surfaced
through the two-way classifier: both tool facades equal their body with
errors mapped by `classify`, `ValueError` maps to invalid-params, and every
other exception maps to internal-error; no third category exists. -/
theorem c3_two_error_categories :
    (∀ t, get_search_response t = (get_search_response_body t).mapError classify) ∧
    (∀ q b env t, (get_deep_research_response q b env t).2.2
        = ((get_deep_research_response_body q b env t).2.2).mapError classify) ∧
    (classify PyExc.valueError = ErrCat.invalidParams) ∧
    (∀ e, e ≠ PyExc.valueError → classify e = ErrCat.internalError) := by
  refine ⟨fun t => rfl, fun q b env t => rfl, rfl, ?_⟩
  intro e he
  cases e <;> simp_all [classify]

/-- Witness for C3: a `KeyError` is classified as internal-error. -/
theorem c3_two_error_categories_witness :
    classify PyExc.keyError = ErrCat.internalError :=
  c3_two_error_categories.2.2.2 PyExc.keyError (by decide)

/-- C5: for every call with `start_new_session = false` while no `SESSION`
value is stored, the outgoing request body carries no `session` key at all. -/
theorem c5_no_session_key_without_stored_session (q : String) (t : DRTransport) :
    jsonHasKey (get_deep_research_response q false none t).1 "session" = false := by
  rcases t with e | (_ | j) <;> rfl

/-- C8: for every call with `start_new_session = false`, the `SESSION`
environment value after the call equals the value before it. -/
theorem c8_false_leaves_session_unchanged (q : String) (env : Option String)
    (t : DRTransport) :
    (get_deep_research_response q false env t).2.1 = env := by
  rcases t with e | (_ | j) <;> rfl

/-- A replies list whose texts are exactly `texts` contributes one
`t ++ "\n"` fragment per text. -/
theorem repliesText_eq_fragsOf (rs : List Json) (texts : List String)
    (h : rs.map replyText = texts.map some) :
    repliesText rs = fragsOf texts := by
  induction rs generalizing texts with
  | nil => cases texts with
    | nil => rfl
    | cons t ts => simp at h
  | cons r rs ih =>
    cases texts with
    | nil => simp at h
    | cons t ts =>
      simp only [List.map_cons, List.cons.injEq] at h
      simp [repliesText, h.1, fragsOf, ih ts h.2]

/-- A row whose `answer.replies` path yields the list `rs` contributes
exactly the fragments of `rs`. -/
theorem rowText_of_replies (row a : Json) (rs : List Json)
    (h1 : pyGetKey row "answer" = Except.ok a)
    (h2 : pyGetKey a "replies" = Except.ok (Json.arr rs)) :
    rowText row = repliesText rs := by
  simp [rowText, h1, h2]

/-- Rows that each contribute `X ++ "\n"` accumulate one fragment per row. -/
theorem rowsText_const (rows : List Json) (X : String)
    (h : ∀ row ∈ rows, rowText row = X ++ "\n") :
    rowsText rows = fragsOf (rows.map fun _ => X) := by
  induction rows with
  | nil => rfl
  | cons row rest ih =>
    simp [rowsText, fragsOf, h row (by simp),
      ih (fun r hr => h r (List.mem_cons_of_mem _ hr))]

/-- C2 counterexample: a one-row body whose row satisfies the claim's
hypothesis (`answer.replies[0].groundedContent.content.text = "X"`) but
whose replies list has a second reply; the output is not the heading
followed by one `"X\n"` per row, because every reply of a row contributes,
not only the first. -/
theorem c2_counterexample :
    (∃ a r0 rs, pyGetKey (mkRow [mkReply "X", mkReply "Y"]) "answer" = Except.ok a ∧
        pyGetKey a "replies" = Except.ok (Json.arr (r0 :: rs)) ∧
        replyText r0 = some "X") ∧
    process_deep_research_response (some (Json.arr [mkRow [mkReply "X", mkReply "Y"]]))
      ≠ Except.ok ("# Reserach Plan\n" ++ "X\n") := by
  constructor
  · exact ⟨_, _, _, rfl, rfl, rfl⟩
  · intro h
    have hval : process_deep_research_response
        (some (Json.arr [mkRow [mkReply "X", mkReply "Y"]]))
        = Except.ok "# Reserach Plan\nX\nY\n" := rfl
    rw [hval] at h
    injection h with h
    exact absurd h (by decide)

/-- C2 (amended): for every body parsing to a JSON array in which every
row's `answer.replies` is a one-element list whose reply's
`groundedContent.content.text` is `X`, the output is the fixed heading
`"# Reserach Plan\n"` followed by `X ++ "\n"` once per row, in order. -/
theorem c2_single_reply_rows_output (rows : List Json) (X : String)
    (h : ∀ row ∈ rows, ∃ a r, pyGetKey row "answer" = Except.ok a ∧
        pyGetKey a "replies" = Except.ok (Json.arr [r]) ∧ replyText r = some X) :
    process_deep_research_response (some (Json.arr rows))
      = Except.ok ("# Reserach Plan\n" ++ fragsOf (rows.map fun _ => X)) := by
  have hrows : rowsText rows = fragsOf (rows.map fun _ => X) := by
    refine rowsText_const rows X (fun row hrow => ?_)
    obtain ⟨a, r, h1, h2, h3⟩ := h row hrow
    rw [rowText_of_replies row a [r] h1 h2]
    simp [repliesText, h3]
  simp [process_deep_research_response, iterTop, hrows]

/-- Witness for C2 (amended) at a concrete two-row body. -/
theorem c2_single_reply_rows_output_witness :
    process_deep_research_response
      (some (Json.arr [mkRow [mkReply "X"], mkRow [mkReply "X"]]))
      = Except.ok ("# Reserach Plan\n"
          ++ fragsOf ([mkRow [mkReply "X"], mkRow [mkReply "X"]].map fun _ => "X")) :=
  c2_single_reply_rows_output [mkRow [mkReply "X"], mkRow [mkReply "X"]] "X"
    (by
      intro row hrow
      simp only [List.mem_cons, List.not_mem_nil, or_false] at hrow
      rcases hrow with rfl | rfl <;> exact ⟨_, _, rfl, rfl, rfl⟩)

/-- C7: a body that is an array of one well-formed row (all replies carrying
texts) and one row missing the `answer` key yields, in either order, exactly
the heading followed by the well-formed row's fragments: the malformed row
contributes nothing and does not abort processing. -/
theorem c7_row_missing_answer_skipped (rs : List Json) (texts : List String)
    (bad : List (String × Json))
    (hw : rs.map replyText = texts.map some)
    (hb : lookupField bad "answer" = none) :
    process_deep_research_response
        (some (Json.arr [mkRow rs, Json.obj bad]))
      = Except.ok ("# Reserach Plan\n" ++ fragsOf texts) ∧
    process_deep_research_response
        (some (Json.arr [Json.obj bad, mkRow rs]))
      = Except.ok ("# Reserach Plan\n" ++ fragsOf texts) := by
  have hwRow : rowText (mkRow rs) = fragsOf texts := by
    rw [rowText_of_replies (mkRow rs) _ rs rfl rfl]
    exact repliesText_eq_fragsOf rs texts hw
  have hbRow : rowText (Json.obj bad) = "" := by
    simp [rowText, pyGetKey, hb]
  constructor <;>
    simp [process_deep_research_response, iterTop, rowsText, hwRow, hbRow]

/-- Witness for C7 at a concrete pair of rows. -/
theorem c7_row_missing_answer_skipped_witness :
    process_deep_research_response
        (some (Json.arr [mkRow [mkReply "ok"], Json.obj [("foo", Json.null)]]))
      = Except.ok ("# Reserach Plan\n" ++ fragsOf ["ok"]) ∧
    process_deep_research_response
        (some (Json.arr [Json.obj [("foo", Json.null)], mkRow [mkReply "ok"]]))
      = Except.ok ("# Reserach Plan\n" ++ fragsOf ["ok"]) :=
  c7_row_missing_answer_skipped [mkReply "ok"] ["ok"] [("foo", Json.null)] rfl rfl

/-- The fragments of a well-formed prefix survive a malformed reply; the
replies from the malformed one onward contribute nothing. -/
theorem repliesText_prefix_of_bad (pre : List Json) (texts : List String)
    (bad : Json) (rest : List Json)
    (h : pre.map replyText = texts.map some)
    (hbad : replyText bad = none) :
    repliesText (pre ++ bad :: rest) = fragsOf texts := by
  induction pre generalizing texts with
  | nil => cases texts with
    | nil => simp [repliesText, hbad, fragsOf]
    | cons t ts => simp at h
  | cons r pr ih =>
    cases texts with
    | nil => simp at h
    | cons t ts =>
      simp only [List.map_cons, List.cons.injEq] at h
      simp [repliesText, h.1, fragsOf, ih ts h.2]

/-- C10: for a row whose replies are a well-formed prefix, then a reply on
which the `groundedContent.content.text` extraction fails, then anything,
the output keeps exactly the prefix's fragments: the failure discards the
rest of the row but not the fragments already accumulated from it. -/
theorem c10_prefix_fragments_kept (pre : List Json) (texts : List String)
    (bad : Json) (rest : List Json)
    (h : pre.map replyText = texts.map some)
    (hbad : replyText bad = none) :
    process_deep_research_response
        (some (Json.arr [mkRow (pre ++ bad :: rest)]))
      = Except.ok ("# Reserach Plan\n" ++ fragsOf texts) := by
  have hrow : rowText (mkRow (pre ++ bad :: rest)) = fragsOf texts := by
    rw [rowText_of_replies (mkRow (pre ++ bad :: rest)) _ (pre ++ bad :: rest) rfl rfl]
    exact repliesText_prefix_of_bad pre texts bad rest h hbad
  simp [process_deep_research_response, iterTop, rowsText, hrow]

/-- Witness for C10: one good reply, then a reply missing `groundedContent`,
then another good reply whose text is dropped. -/
theorem c10_prefix_fragments_kept_witness :
    process_deep_research_response
        (some (Json.arr [mkRow [mkReply "keep", Json.obj [], mkReply "drop"]]))
      = Except.ok ("# Reserach Plan\n" ++ fragsOf ["keep"]) :=
  c10_prefix_fragments_kept [mkReply "keep"] ["keep"] (Json.obj []) [mkReply "drop"]
    rfl rfl

/-- C4: for every call with `start_new_session = true` whose response body
parses to a JSON array whose first element carries a string
`sessionInfo.session`, the stored `SESSION` value after the call is exactly
that token, whatever value (if any) was stored before. -/
theorem c4_new_session_overwrites_token (q : String) (env : Option String)
    (first si : Json) (restJ : List Json) (s : String)
    (h1 : pyGetKey first "sessionInfo" = Except.ok si)
    (h2 : pyGetKey si "session" = Except.ok (Json.str s)) :
    (get_deep_research_response q true env
        (DRTransport.ok (some (Json.arr (first :: restJ))))).2.1 = some s := by
  simp [get_deep_research_response, get_deep_research_response_body,
    extract_session, pyGetIdx0, h1, h2]

/-- Witness for C4: a stored token `"old"` is overwritten with `"new"`. -/
theorem c4_new_session_overwrites_token_witness :
    (get_deep_research_response "q" true (some "old")
        (DRTransport.ok (some (Json.arr
          [Json.obj [("sessionInfo", Json.obj [("session", Json.str "new")])]])))).2.1
      = some "new" :=
  c4_new_session_overwrites_token "q" (some "old") _ _ [] "new" rfl rfl

/-- C9: for every call with `start_new_session = true` that fails before the
session token is extracted — the POST raised, the body is not valid JSON, or
the `result_json[0]['sessionInfo']['session']` extraction raises — the
stored `SESSION` value after the call equals the value before it. -/
theorem c9_failed_call_keeps_session (q : String) (env : Option String)
    (t : DRTransport)
    (h : ∀ j, t = DRTransport.ok (some j) → ∃ e, extract_session j = Except.error e) :
    (get_deep_research_response q true env t).2.1 = env := by
  rcases t with e | (_ | j)
  · rfl
  · rfl
  · obtain ⟨e, he⟩ := h j rfl
    simp [get_deep_research_response, get_deep_research_response_body, he]

/-- Witness for C9: an empty result array (extraction raises `IndexError`)
leaves the stored token `"old"` in place. -/
theorem c9_failed_call_keeps_session_witness :
    (get_deep_research_response "q" true (some "old")
        (DRTransport.ok (some (Json.arr [])))).2.1 = some "old" :=
  c9_failed_call_keeps_session "q" (some "old") (DRTransport.ok (some (Json.arr [])))
    (by
      intro j h
      injection h with h
      injection h with h
      exact ⟨PyExc.indexError, h ▸ rfl⟩)

end McpAgentspace
